import Mathlib

/-
Shallow embedding of volta_accelerate.py: a one-shot conversion utility with
two pipelines, an ONNX exporter (convert_to_onnx) and a TensorRT engine
compiler (convert_to_trt), dispatched from a __main__ block on the onnx_trt
mode flag.  External library calls (model loading, tracing, ONNX parsing,
engine building, fp16 conversion) are modelled as environment parameters;
each pipeline is a pure function from its environment and the parsed
arguments to a trace of observable events plus a process outcome.
-/

set_option autoImplicit false

namespace Volta

/-- The parsed command-line arguments of get_args, in their well-typed form
(model_path, save_path : str; batch_size, max_gpu_memory : int;
img_size the default (512, 512) pair; max_seq_length the default int). -/
structure Args where
  model_path : String
  save_path : String
  batch_size : Nat
  img_size : Nat × Nat
  max_seq_length : Nat
  max_gpu_memory : Nat
  onnx_trt : String
  deriving Repr, DecidableEq

/-- The defaults declared in get_args. -/
def default_args : Args :=
  { model_path := "runwayml/stable-diffusion-v1-5"
    save_path := "unet.engine"
    batch_size := 1
    img_size := (512, 512)
    max_seq_length := 77
    max_gpu_memory := 15
    onnx_trt := "onnx" }

/-- ONNX tensor element types relevant to this program. -/
inductive ElemType where
  | f32
  | f16
  | i64
  | b8
  deriving Repr, DecidableEq

/-- An ONNX model as far as this program observes it: the declared element
types of its graph inputs and outputs, and the element types of its internal
initializers/activations. -/
structure OnnxModel where
  inputTypes : List ElemType
  outputTypes : List ElemType
  internalTypes : List ElemType
  deriving Repr, DecidableEq

/-- Narrowing a single element type to half precision: float32 becomes
float16, every other type is untouched. -/
def narrowType : ElemType → ElemType
  | ElemType.f32 => ElemType.f16
  | t => t

/-- Modelled from the spec: onnxconverter_common.convert_float_to_float16_model_path,
a collaborator whose code is not part of this repository.  The spec describes
it as deriving a reduced-precision copy of the graph; with keep_io_types set,
input/output tensor element types stay unchanged while internal
weights/activations are narrowed, and without it the declared boundary types
are narrowed as well. -/
def convert_float_to_float16_model_path (m : OnnxModel) (keep_io_types : Bool) : OnnxModel :=
  { inputTypes := if keep_io_types then m.inputTypes else m.inputTypes.map narrowType
    outputTypes := if keep_io_types then m.outputTypes else m.outputTypes.map narrowType
    internalTypes := m.internalTypes.map narrowType }

/-- Contents a file of this program can hold: a serialized ONNX graph, or
raw engine bytes of a given length. -/
inductive FileContent where
  | onnxFile (m : OnnxModel)
  | engineBytes (len : Nat)
  deriving Repr, DecidableEq

/-- Observable events of a run: directory creation, file writes, stdout
prints, the jit trace call with its sample input shapes, the parser read,
the TensorRT builder-configuration calls, and the engine-file open/write. -/
inductive Event where
  | mkdir (path : String)
  | writeFile (path : String) (content : FileContent)
  | print (line : String)
  | jit_trace (primary : List (List Nat)) (check : List (List (List Nat)))
  | parse_from_file (path : String)
  | set_shape (input : String) (mn op mx : List Nat)
  | add_optimization_profile
  | set_memory_pool_limit (bytes : Nat)
  | set_flag_fp16
  | openTrunc (path : String)
  | fwrite (path : String) (len : Nat)
  deriving Repr, DecidableEq

/-- How the process ends: falls off normally (exit status 0), terminates via
an explicit sys.exit carrying a message (printed to stderr, status 1), or
dies on an uncaught exception (abnormal termination, status 1). -/
inductive Outcome where
  | normal
  | exited (msg : String)
  | exception
  deriving Repr, DecidableEq

/-- Process exit status for each outcome. -/
def exitCode : Outcome → Nat
  | Outcome.normal => 0
  | Outcome.exited _ => 1
  | Outcome.exception => 1

/-- Environment of the exporter pipeline: whether the directory unet already
exists, and the graph torch.onnx.export serializes for the loaded model
(the model weights, device and tracing internals are opaque). -/
structure ExportEnv where
  unet_dir_exists : Bool
  unet_onnx : OnnxModel
  deriving Repr, DecidableEq

/-- The two sample input tuples of convert_to_onnx (lines 62 to 77), as the
lists of tensor shapes handed to torch.jit.trace: rand(2, 4, h, w),
tensor([980]) of shape (1,), rand(2, max_seq_length, 768) respectively
rand(2, 12, 768), and two boolean scalars of shape ().  h and w are
height // 8 and width // 8 of the configured image size. -/
def check_inputs (args : Args) : List (List (List Nat)) :=
  let h := args.img_size.1 / 8
  let w := args.img_size.2 / 8
  [ [[2, 4, h, w], [1], [2, args.max_seq_length, 768], [], []],
    [[2, 4, h, w], [1], [2, 12, 768], [], []] ]

/-- The exporter pipeline convert_to_onnx (lines 46 to 105): make the unet
directory when absent, trace the model on check_inputs[0] with
check_inputs[1] as consistency check, export the traced graph to
unet/model.onnx, then write the fp16 conversion (keep_io_types=True) to
unet/model_fp16.onnx.  The returned list is the trace of a run in which the
opaque library calls succeed. -/
def convert_to_onnx (env : ExportEnv) (args : Args) : List Event :=
  (if env.unet_dir_exists then [] else [Event.mkdir "unet"]) ++
  [ Event.jit_trace ((check_inputs args).getD 0 []) [(check_inputs args).getD 1 []],
    Event.writeFile "unet/model.onnx" (FileContent.onnxFile env.unet_onnx),
    Event.writeFile "unet/model_fp16.onnx"
      (FileContent.onnxFile (convert_float_to_float16_model_path env.unet_onnx true)) ]

/-- Environment of the compiler pipeline: whether parse_from_file on
./unet/model.onnx succeeds, the parse errors the OnnxParser records
(num_errors is their count), and the result of build_serialized_network,
none when the build fails and otherwise the serialized engine, represented
by its byte length. -/
structure TrtEnv where
  parse_success : Bool
  errors : List String
  build_result : Option Nat
  deriving Repr, DecidableEq

/-- The latents_shape tuple of convert_to_trt (lines 123 to 128):
(batch_size * 2, 4, img_size[0] // 8, img_size[1] // 8). -/
def latents_shape (args : Args) : List Nat :=
  [args.batch_size * 2, 4, args.img_size.1 / 8, args.img_size.2 / 8]

/-- The embed_shape tuple of line 129: (batch_size * 2, max_seq_length, 768). -/
def embed_shape (args : Args) : List Nat :=
  [args.batch_size * 2, args.max_seq_length, 768]

/-- The timestep_shape tuple of line 130: (batch_size,). -/
def timestep_shape (args : Args) : List Nat :=
  [args.batch_size]

/-- The compiler pipeline convert_to_trt (lines 108 to 146): parse
./unet/model.onnx, print every recorded parser error, sys.exit with a
message when parsing failed; otherwise bind the three named inputs to their
single shapes in one optimization profile (min = opt = max), add the
profile, set the workspace memory limit and the FP16 flag, build, then open
the save path in write-binary mode and write the serialized engine.  A
failed build returns None, so the subsequent f.write raises an uncaught
exception after the file has already been truncated. -/
def convert_to_trt (env : TrtEnv) (args : Args) : List Event × Outcome :=
  let pre := Event.parse_from_file "./unet/model.onnx" :: env.errors.map Event.print
  if env.parse_success then
    let L := latents_shape args
    let E := embed_shape args
    let T := timestep_shape args
    let cfg :=
      [ Event.set_shape "latent_model_input" L L L,
        Event.set_shape "encoder_hidden_states" E E E,
        Event.set_shape "t" T T T,
        Event.add_optimization_profile,
        Event.set_memory_pool_limit ((args.max_gpu_memory * 1) <<< 30),
        Event.set_flag_fp16 ]
    match env.build_result with
    | some n =>
        (pre ++ cfg ++
          [ Event.openTrunc args.save_path,
            Event.fwrite args.save_path n,
            Event.print ("Engine is saved to " ++ args.save_path) ],
          Outcome.normal)
    | none =>
        (pre ++ cfg ++ [Event.openTrunc args.save_path], Outcome.exception)
  else
    (pre, Outcome.exited "ONNX model parsing failed")

/-- The __main__ block (lines 149 to 156): run the exporter when the mode
flag equals "onnx", then run the compiler when it equals "trt"; any other
value runs neither and the process falls off the end normally. -/
def main_run (eo : ExportEnv) (et : TrtEnv) (args : Args) : List Event × Outcome :=
  let ev1 := if args.onnx_trt = "onnx" then convert_to_onnx eo args else []
  if args.onnx_trt = "trt" then
    let r := convert_to_trt et args
    (ev1 ++ r.1, r.2)
  else
    (ev1, Outcome.normal)

/-- Lines printed to stdout during a trace. -/
def printedLines : List Event → List String
  | [] => []
  | Event.print s :: tr => s :: printedLines tr
  | _ :: tr => printedLines tr

/-- All diagnostic lines a run emits: stdout prints plus, for an explicit
sys.exit, the message it prints to stderr. -/
def diagnosticLines (r : List Event × Outcome) : List String :=
  printedLines r.1 ++
    (match r.2 with
     | Outcome.exited m => [m]
     | _ => [])

/-- The paths a trace writes to (file writes, truncating opens, raw writes). -/
def writesOf : List Event → List String
  | [] => []
  | Event.writeFile p _ :: tr => p :: writesOf tr
  | Event.openTrunc p :: tr => p :: writesOf tr
  | Event.fwrite p _ :: tr => p :: writesOf tr
  | _ :: tr => writesOf tr

/-- The directories a trace creates. -/
def mkdirsOf : List Event → List String
  | [] => []
  | Event.mkdir p :: tr => p :: mkdirsOf tr
  | _ :: tr => mkdirsOf tr

/-- The paths a trace reads an input graph from. -/
def readsOf : List Event → List String
  | [] => []
  | Event.parse_from_file p :: tr => p :: readsOf tr
  | _ :: tr => readsOf tr

/-- The set_shape calls of a trace, as (input name, min, opt, max). -/
def setShapesOf : List Event → List (String × List Nat × List Nat × List Nat)
  | [] => []
  | Event.set_shape i mn op mx :: tr => (i, mn, op, mx) :: setShapesOf tr
  | _ :: tr => setShapesOf tr

/-- How many optimization profiles a trace adds to the builder config. -/
def profilesAdded : List Event → Nat
  | [] => 0
  | Event.add_optimization_profile :: tr => profilesAdded tr + 1
  | _ :: tr => profilesAdded tr

/-- Effect of one event on the file-system state: a truncating open leaves a
zero-length file, a raw write appends to it, a file write replaces the
content; everything else leaves the file system alone. -/
def applyEvent (fs : String → Option FileContent) (e : Event) : String → Option FileContent :=
  match e with
  | Event.writeFile p c => fun q => if q = p then some c else fs q
  | Event.openTrunc p => fun q => if q = p then some (FileContent.engineBytes 0) else fs q
  | Event.fwrite p n => fun q =>
      if q = p then
        match fs p with
        | some (FileContent.engineBytes k) => some (FileContent.engineBytes (k + n))
        | _ => some (FileContent.engineBytes n)
      else fs q
  | _ => fs

/-- File-system state after running a trace from a given initial state. -/
def runFS (fs : String → Option FileContent) (tr : List Event) : String → Option FileContent :=
  tr.foldl applyEvent fs

/-- Content of a path after running a trace on an initially empty file
system. -/
def fileAfter (tr : List Event) (p : String) : Option FileContent :=
  runFS (fun _ => none) tr p

/-! Untyped view of the argparse flags declared without a type converter
(img_size at line 25 and max_seq_length at line 28): a value supplied on the
command line is stored as the raw string, while an omitted flag keeps the
in-program default object. -/

/-- A Python value as these flags can hold it: an int, a str, or a tuple. -/
inductive PyVal where
  | int (n : Int)
  | str (s : String)
  | tuple (xs : List PyVal)

/-- argparse storage for a flag declared without a type converter: the raw
command-line string when supplied, the default object otherwise. -/
def parse_untyped_flag (default : PyVal) (cli : Option String) : PyVal :=
  match cli with
  | some s => PyVal.str s
  | none => default

/-- The in-program default of the img_size flag: the tuple (512, 512). -/
def img_size_default : PyVal :=
  PyVal.tuple [PyVal.int 512, PyVal.int 512]

/-- The in-program default of the max_seq_length flag: the int 77. -/
def max_seq_length_default : PyVal :=
  PyVal.int 77

/-- Python subscripting v[i]: a str yields its i-th character as a
one-character str (IndexError past the end), a tuple yields its i-th
element, and an int is not subscriptable (TypeError).  Failures are none. -/
def py_index : PyVal → Nat → Option PyVal
  | PyVal.str s, i => (s.toList.get? i).map (fun c => PyVal.str (String.mk [c]))
  | PyVal.tuple xs, i => xs.get? i
  | PyVal.int _, _ => none

/-- Python floor division v // n: defined for ints (floor semantics,
ZeroDivisionError for n = 0), a TypeError (none) on str and tuple. -/
def py_floordiv : PyVal → Int → Option PyVal
  | PyVal.int m, n => if n = 0 then none else some (PyVal.int (Int.fdiv m n))
  | PyVal.str _, _ => none
  | PyVal.tuple _, _ => none

/-- Whether a Python value is an int, as required of every tensor dimension
(torch.rand and the trt.Dims conversion inside profile.set_shape both raise
a TypeError on a str dimension). -/
def py_is_int : PyVal → Bool
  | PyVal.int _ => true
  | _ => false

/-- The exporter sample-shape computation of lines 59 to 66 on the untyped
flag values: height = img_size[0], width = img_size[1],
h, w = height // 8, width // 8, then the latent shape (2, 4, h, w) and the
embedding shape (2, max_seq_length, 768) whose dimensions torch.rand
requires to be ints.  Returns none where Python raises. -/
def onnx_shape_comp (img_size max_seq_length : PyVal) : Option (List PyVal × List PyVal) := do
  let height ← py_index img_size 0
  let width ← py_index img_size 1
  let h ← py_floordiv height 8
  let w ← py_floordiv width 8
  if py_is_int max_seq_length then
    some ([PyVal.int 2, PyVal.int 4, h, w], [PyVal.int 2, max_seq_length, PyVal.int 768])
  else
    none

/-- The compiler shape computation of lines 123 to 134 on the untyped flag
values: latents_shape = (batch_size * 2, 4, img_size[0] // 8,
img_size[1] // 8), embed_shape = (batch_size * 2, max_seq_length, 768),
timestep_shape = (batch_size,), with every dimension required to be an int
by the trt.Dims conversion inside profile.set_shape.  Returns none where
Python raises. -/
def trt_shape_comp (batch_size : Int) (img_size max_seq_length : PyVal) :
    Option (List Int × List Int × List Int) := do
  let h0 ← py_index img_size 0
  let h1 ← py_floordiv h0 8
  let w0 ← py_index img_size 1
  let w1 ← py_floordiv w0 8
  match h1, w1, max_seq_length with
  | PyVal.int h, PyVal.int w, PyVal.int L =>
      some ([batch_size * 2, 4, h, w], [batch_size * 2, L, 768], [batch_size])
  | _, _, _ => none

/-! Concrete environments used by the witness theorems. -/

/-- A sample exported graph: float inputs and output, internal float
weights, with the long timestep input mixed in. -/
def sampleModel : OnnxModel :=
  { inputTypes := [ElemType.f32, ElemType.i64, ElemType.f32]
    outputTypes := [ElemType.f32]
    internalTypes := [ElemType.f32, ElemType.f32] }

/-- An exporter environment where the unet directory does not yet exist. -/
def sampleExportEnv : ExportEnv :=
  { unet_dir_exists := false, unet_onnx := sampleModel }

/-- A compiler environment where parsing the graph fails with one recorded
error. -/
def envParseFail : TrtEnv :=
  { parse_success := false, errors := ["err: model file is empty"], build_result := none }

/-- A compiler environment where parsing succeeds and the build produces a
ten-byte serialized engine. -/
def envBuildOk : TrtEnv :=
  { parse_success := true, errors := [], build_result := some 10 }

/-- A compiler environment where parsing succeeds but the build fails. -/
def envBuildFail : TrtEnv :=
  { parse_success := true, errors := [], build_result := none }

/-- An argument record whose image dimensions are not divisible by 8. -/
def args_nondiv : Args :=
  { default_args with img_size := (500, 509) }

/-! Helper lemmas about the trace extractors. -/

@[simp]
lemma printedLines_append (l1 l2 : List Event) :
    printedLines (l1 ++ l2) = printedLines l1 ++ printedLines l2 := by
  induction l1 with
  | nil => rfl
  | cons e tr ih => cases e <;> simp [printedLines, ih]

@[simp]
lemma printedLines_map_print (l : List String) :
    printedLines (l.map Event.print) = l := by
  induction l with
  | nil => rfl
  | cons s tr ih => simp [printedLines, ih]

@[simp]
lemma writesOf_append (l1 l2 : List Event) :
    writesOf (l1 ++ l2) = writesOf l1 ++ writesOf l2 := by
  induction l1 with
  | nil => rfl
  | cons e tr ih => cases e <;> simp [writesOf, ih]

@[simp]
lemma writesOf_map_print (l : List String) :
    writesOf (l.map Event.print) = [] := by
  induction l with
  | nil => rfl
  | cons s tr ih => simp [writesOf, ih]

@[simp]
lemma mkdirsOf_append (l1 l2 : List Event) :
    mkdirsOf (l1 ++ l2) = mkdirsOf l1 ++ mkdirsOf l2 := by
  induction l1 with
  | nil => rfl
  | cons e tr ih => cases e <;> simp [mkdirsOf, ih]

@[simp]
lemma readsOf_append (l1 l2 : List Event) :
    readsOf (l1 ++ l2) = readsOf l1 ++ readsOf l2 := by
  induction l1 with
  | nil => rfl
  | cons e tr ih => cases e <;> simp [readsOf, ih]

@[simp]
lemma readsOf_map_print (l : List String) :
    readsOf (l.map Event.print) = [] := by
  induction l with
  | nil => rfl
  | cons s tr ih => simp [readsOf, ih]

@[simp]
lemma setShapesOf_append (l1 l2 : List Event) :
    setShapesOf (l1 ++ l2) = setShapesOf l1 ++ setShapesOf l2 := by
  induction l1 with
  | nil => rfl
  | cons e tr ih => cases e <;> simp [setShapesOf, ih]

@[simp]
lemma setShapesOf_map_print (l : List String) :
    setShapesOf (l.map Event.print) = [] := by
  induction l with
  | nil => rfl
  | cons s tr ih => simp [setShapesOf, ih]

@[simp]
lemma profilesAdded_append (l1 l2 : List Event) :
    profilesAdded (l1 ++ l2) = profilesAdded l1 + profilesAdded l2 := by
  induction l1 with
  | nil => simp [profilesAdded]
  | cons e tr ih => cases e <;> simp [profilesAdded, ih, Nat.add_right_comm]

@[simp]
lemma profilesAdded_map_print (l : List String) :
    profilesAdded (l.map Event.print) = 0 := by
  induction l with
  | nil => rfl
  | cons s tr ih => simp [profilesAdded, ih]

@[simp]
lemma runFS_append (fs : String → Option FileContent) (l1 l2 : List Event) :
    runFS fs (l1 ++ l2) = runFS (runFS fs l1) l2 := by
  simp [runFS, List.foldl_append]

@[simp]
lemma runFS_map_print (fs : String → Option FileContent) (l : List String) :
    runFS fs (l.map Event.print) = fs := by
  induction l with
  | nil => rfl
  | cons s tr ih => simpa [runFS, applyEvent] using ih

/-! The claim theorems. -/

/-- C1: when parsing of ./unet/model.onnx does not succeed, convert_to_trt
prints every parse error the parser recorded, emits at least one diagnostic
line in total, terminates via an explicit sys.exit with a non-zero status,
and writes to no path at all, in particular not to the engine save path. -/
theorem trt_parse_failure_diagnostics (env : TrtEnv) (args : Args)
    (h : env.parse_success = false) :
    (∀ e ∈ env.errors, e ∈ diagnosticLines (convert_to_trt env args))
    ∧ 1 ≤ (diagnosticLines (convert_to_trt env args)).length
    ∧ (convert_to_trt env args).2 = Outcome.exited "ONNX model parsing failed"
    ∧ exitCode (convert_to_trt env args).2 = 1
    ∧ writesOf (convert_to_trt env args).1 = [] := by
  simp [convert_to_trt, h, diagnosticLines, printedLines, writesOf, exitCode]
  exact fun e he => Or.inl he

/-- Witness for C1 at a concrete failing environment and the default
arguments. -/
theorem trt_parse_failure_diagnostics_witness :
    ("err: model file is empty" ∈ diagnosticLines (convert_to_trt envParseFail default_args))
    ∧ (convert_to_trt envParseFail default_args).2 = Outcome.exited "ONNX model parsing failed"
    ∧ writesOf (convert_to_trt envParseFail default_args).1 = [] := by
  have h := trt_parse_failure_diagnostics envParseFail default_args rfl
  exact ⟨h.1 _ (List.mem_singleton.mpr rfl), h.2.2.1, h.2.2.2.2⟩

/-- C2: the __main__ dispatch runs neither pipeline and ends with exit
status 0 when the mode flag is neither "onnx" nor "trt" (no events, hence no
conversion work and no writes); with mode "onnx" the run is exactly the
exporter run, and with mode "trt" exactly the compiler run. -/
theorem main_mode_dispatch (eo : ExportEnv) (et : TrtEnv) (args : Args) :
    (args.onnx_trt ≠ "onnx" → args.onnx_trt ≠ "trt" →
      main_run eo et args = ([], Outcome.normal)
        ∧ exitCode (main_run eo et args).2 = 0)
    ∧ (args.onnx_trt = "onnx" →
      main_run eo et args = (convert_to_onnx eo args, Outcome.normal))
    ∧ (args.onnx_trt = "trt" → main_run eo et args = convert_to_trt et args) := by
  refine ⟨fun h1 h2 => ?_, fun h => ?_, fun h => ?_⟩
  · simp [main_run, h1, h2, exitCode]
  · simp [main_run, h]
  · simp [main_run, h]

/-- Witness for C2: with the mode flag set to "vae" the program does
nothing and exits normally. -/
theorem main_mode_dispatch_witness :
    main_run sampleExportEnv envBuildOk { default_args with onnx_trt := "vae" } =
      ([], Outcome.normal) := by
  exact (main_mode_dispatch sampleExportEnv envBuildOk
    { default_args with onnx_trt := "vae" }).1 (by decide) (by decide) |>.1

/-- C3: when parsing succeeds, the compiler performs exactly three set_shape
calls, one per named input, with latent shape (2 * b, 4, H // 8, W // 8) and
encoder-hidden-state shape (2 * b, L, 768), both doubling the nominal batch
size, and timestep shape (b,), which is not doubled. -/
theorem trt_three_fixed_shapes (env : TrtEnv) (args : Args)
    (h : env.parse_success = true) :
    setShapesOf (convert_to_trt env args).1 =
      [ ("latent_model_input", latents_shape args, latents_shape args, latents_shape args),
        ("encoder_hidden_states", embed_shape args, embed_shape args, embed_shape args),
        ("t", timestep_shape args, timestep_shape args, timestep_shape args) ]
    ∧ latents_shape args =
        [2 * args.batch_size, 4, args.img_size.1 / 8, args.img_size.2 / 8]
    ∧ embed_shape args = [2 * args.batch_size, args.max_seq_length, 768]
    ∧ timestep_shape args = [args.batch_size] := by
  refine ⟨?_, by simp [latents_shape, Nat.mul_comm], by simp [embed_shape, Nat.mul_comm], rfl⟩
  cases hb : env.build_result <;> simp [convert_to_trt, h, hb, setShapesOf]

/-- Witness for C3 at a concrete successful environment and the default
arguments (batch 1, image 512 by 512, sequence length 77). -/
theorem trt_three_fixed_shapes_witness :
    setShapesOf (convert_to_trt envBuildOk default_args).1 =
      [ ("latent_model_input", [2, 4, 64, 64], [2, 4, 64, 64], [2, 4, 64, 64]),
        ("encoder_hidden_states", [2, 77, 768], [2, 77, 768], [2, 77, 768]),
        ("t", [1], [1], [1]) ] := by
  rw [(trt_three_fixed_shapes envBuildOk default_args rfl).1]
  rfl

/-- C4: when parsing succeeds, the compiler adds exactly one optimization
profile to the builder config, the profile binds exactly the three named
inputs, and every set_shape call passes the same shape as minimum, optimal
and maximum, so each engine targets one static shape per input. -/
theorem trt_single_static_profile (env : TrtEnv) (args : Args)
    (h : env.parse_success = true) :
    profilesAdded (convert_to_trt env args).1 = 1
    ∧ (setShapesOf (convert_to_trt env args).1).map Prod.fst =
        ["latent_model_input", "encoder_hidden_states", "t"]
    ∧ ∀ q ∈ setShapesOf (convert_to_trt env args).1,
        q.2.1 = q.2.2.1 ∧ q.2.2.1 = q.2.2.2 := by
  refine ⟨?_, ?_, ?_⟩ <;>
    cases hb : env.build_result <;>
      simp [convert_to_trt, h, hb, setShapesOf, profilesAdded]

/-- Witness for C4 at a concrete successful environment. -/
theorem trt_single_static_profile_witness :
    profilesAdded (convert_to_trt envBuildOk default_args).1 = 1 :=
  (trt_single_static_profile envBuildOk default_args rfl).1

/-- C5: for an image height not divisible by 8, the exporter sample shapes
and the compiler latent shape both use truncating floor division by 8
(strictly losing part of the height) and both pipelines proceed with the
truncated values: the exporter still traces, and a successfully parsing
compiler still binds the latent input to the truncated shape.  Neither
pipeline raises a validation error. -/
theorem shape_truncation_div8 (eo : ExportEnv) (et : TrtEnv) (args : Args)
    (h8 : args.img_size.1 % 8 ≠ 0) :
    ((check_inputs args).getD 0 []).getD 0 [] =
        [2, 4, args.img_size.1 / 8, args.img_size.2 / 8]
    ∧ latents_shape args =
        [args.batch_size * 2, 4, args.img_size.1 / 8, args.img_size.2 / 8]
    ∧ (args.img_size.1 / 8) * 8 < args.img_size.1
    ∧ Event.jit_trace ((check_inputs args).getD 0 []) [(check_inputs args).getD 1 []]
        ∈ convert_to_onnx eo args
    ∧ (et.parse_success = true →
        Event.set_shape "latent_model_input" (latents_shape args) (latents_shape args)
          (latents_shape args) ∈ (convert_to_trt et args).1) := by
  refine ⟨rfl, rfl, ?_, ?_, fun hp => ?_⟩
  · omega
  · simp [convert_to_onnx]
  · cases hb : et.build_result <;> simp [convert_to_trt, hp, hb]

/-- Witness for C5 at image size (500, 509): 500 is not divisible by 8, the
truncated quotient 62 satisfies 62 * 8 < 500, and the exporter proceeds. -/
theorem shape_truncation_div8_witness :
    (args_nondiv.img_size.1 / 8) * 8 < args_nondiv.img_size.1
    ∧ Event.jit_trace ((check_inputs args_nondiv).getD 0 [])
        [(check_inputs args_nondiv).getD 1 []] ∈ convert_to_onnx sampleExportEnv args_nondiv := by
  have h := shape_truncation_div8 sampleExportEnv envBuildOk args_nondiv (by decide)
  exact ⟨h.2.2.1, h.2.2.2.1⟩

/-- C6: every successful exporter run leaves a full-precision graph at
unet/model.onnx and a reduced-precision graph at unet/model_fp16.onnx whose
declared input and output element types equal the full-precision ones,
because the conversion is invoked with keep_io_types set while the internal
types are narrowed. -/
theorem fp16_keeps_io_types (env : ExportEnv) (args : Args) :
    ∃ m m16 : OnnxModel,
      fileAfter (convert_to_onnx env args) "unet/model.onnx" = some (FileContent.onnxFile m)
      ∧ fileAfter (convert_to_onnx env args) "unet/model_fp16.onnx" =
          some (FileContent.onnxFile m16)
      ∧ m16.inputTypes = m.inputTypes
      ∧ m16.outputTypes = m.outputTypes
      ∧ m16.internalTypes = m.internalTypes.map narrowType := by
  refine ⟨env.unet_onnx, convert_float_to_float16_model_path env.unet_onnx true,
    ?_, ?_, rfl, rfl, rfl⟩ <;>
    cases hd : env.unet_dir_exists <;>
      simp [convert_to_onnx, hd, fileAfter, runFS, applyEvent]

/-- C7: the exporter writes exactly unet/model.onnx then unet/model_fp16.onnx
and creates the unet directory exactly when it is absent; the compiler reads
its graph from ./unet/model.onnx whatever the configured model path is,
every path the compiler writes to is the user-specified save path, and on a
successful build the save path is written (opened and filled). -/
theorem fixed_output_paths (eo : ExportEnv) (et : TrtEnv) (args : Args) :
    writesOf (convert_to_onnx eo args) = ["unet/model.onnx", "unet/model_fp16.onnx"]
    ∧ mkdirsOf (convert_to_onnx eo args) =
        (if eo.unet_dir_exists then [] else ["unet"])
    ∧ (∀ mp, readsOf (convert_to_trt et { args with model_path := mp }).1 =
        ["./unet/model.onnx"])
    ∧ (∀ p ∈ writesOf (convert_to_trt et args).1, p = args.save_path)
    ∧ (∀ n, et.parse_success = true → et.build_result = some n →
        writesOf (convert_to_trt et args).1 = [args.save_path, args.save_path]) := by
  refine ⟨?_, ?_, fun mp => ?_, ?_, fun n hp hb => ?_⟩
  · cases hd : eo.unet_dir_exists <;> simp [convert_to_onnx, hd, writesOf]
  · cases hd : eo.unet_dir_exists <;> simp [convert_to_onnx, hd, mkdirsOf]
  · cases hp : et.parse_success <;> cases hb : et.build_result <;>
      simp [convert_to_trt, hp, hb, readsOf]
  · cases hp : et.parse_success <;> cases hb : et.build_result <;>
      simp [convert_to_trt, hp, hb, writesOf]
  · simp [convert_to_trt, hp, hb, writesOf]

/-- Witness for C7 at concrete environments and the default arguments,
whose save path is unet.engine. -/
theorem fixed_output_paths_witness :
    writesOf (convert_to_onnx sampleExportEnv default_args) =
      ["unet/model.onnx", "unet/model_fp16.onnx"]
    ∧ readsOf (convert_to_trt envBuildOk { default_args with model_path := "other/model" }).1 =
      ["./unet/model.onnx"]
    ∧ writesOf (convert_to_trt envBuildOk default_args).1 = ["unet.engine", "unet.engine"] := by
  have h := fixed_output_paths sampleExportEnv envBuildOk default_args
  exact ⟨h.1, h.2.2.1 "other/model", h.2.2.2.2 10 rfl rfl⟩

/-- C8: the exporter never reads the batch-size flag: two argument records
that differ only in batch_size yield identical exporter runs, and the batch
dimension of both sample-input latent tensors and both sample embedding
tensors is hard-coded to 2. -/
theorem exporter_batch_size_noninterference (env : ExportEnv) (args : Args) (b1 b2 : Nat) :
    convert_to_onnx env { args with batch_size := b1 } =
      convert_to_onnx env { args with batch_size := b2 }
    ∧ (check_inputs args).map (fun inp => (inp.getD 0 []).getD 0 0) = [2, 2]
    ∧ (check_inputs args).map (fun inp => (inp.getD 2 []).getD 0 0) = [2, 2] :=
  ⟨rfl, rfl, rfl⟩

@[simp]
lemma runFS_nil (fs : String → Option FileContent) : runFS fs [] = fs :=
  rfl

@[simp]
lemma runFS_cons (fs : String → Option FileContent) (e : Event) (tr : List Event) :
    runFS fs (e :: tr) = runFS (applyEvent fs e) tr :=
  rfl

/-- C9: when parsing succeeds but build_serialized_network returns no
engine, the compiler has already opened the save path in write-binary mode,
truncating it to zero length, before f.write fails: the run ends in an
uncaught exception (abnormal termination, non-zero status) and leaves an
empty engine file on disk.  The error path is not atomic. -/
theorem trt_build_failure_truncates_engine_file (env : TrtEnv) (args : Args)
    (hp : env.parse_success = true) (hb : env.build_result = none) :
    (convert_to_trt env args).2 = Outcome.exception
    ∧ Event.openTrunc args.save_path ∈ (convert_to_trt env args).1
    ∧ fileAfter (convert_to_trt env args).1 args.save_path =
        some (FileContent.engineBytes 0)
    ∧ exitCode (convert_to_trt env args).2 = 1 := by
  refine ⟨?_, ?_, ?_, ?_⟩ <;>
    simp [convert_to_trt, hp, hb, fileAfter, applyEvent, exitCode]

/-- Witness for C9 at a concrete environment whose build fails and the
default arguments: the run dies abnormally yet unet.engine exists empty. -/
theorem trt_build_failure_truncates_engine_file_witness :
    (convert_to_trt envBuildFail default_args).2 = Outcome.exception
    ∧ fileAfter (convert_to_trt envBuildFail default_args).1 "unet.engine" =
        some (FileContent.engineBytes 0) := by
  have h := trt_build_failure_truncates_engine_file envBuildFail default_args rfl rfl
  exact ⟨h.1, h.2.2.1⟩

lemma py_index_str_is_str (s : String) (i : Nat) (v : PyVal)
    (h : py_index (PyVal.str s) i = some v) :
    ∃ c : Char, v = PyVal.str (String.mk [c]) := by
  obtain ⟨c, hc, hv⟩ := Option.map_eq_some'.mp h
  exact ⟨c, hv.symm⟩

lemma onnx_shape_comp_str_img (s : String) (ms : PyVal) :
    onnx_shape_comp (PyVal.str s) ms = none := by
  cases hx : py_index (PyVal.str s) 0 with
  | none => simp [onnx_shape_comp, hx]
  | some v =>
      obtain ⟨c, rfl⟩ := py_index_str_is_str s 0 v hx
      cases hy : py_index (PyVal.str s) 1 with
      | none => simp [onnx_shape_comp, hx, hy]
      | some w => simp [onnx_shape_comp, hx, hy, py_floordiv]

lemma onnx_shape_comp_str_seq (t : String) :
    onnx_shape_comp img_size_default (PyVal.str t) = none :=
  rfl

lemma onnx_shape_comp_defaults :
    onnx_shape_comp img_size_default max_seq_length_default =
      some ([PyVal.int 2, PyVal.int 4, PyVal.int 64, PyVal.int 64],
            [PyVal.int 2, PyVal.int 77, PyVal.int 768]) :=
  rfl

lemma trt_shape_comp_str_img (b : Int) (s : String) (ms : PyVal) :
    trt_shape_comp b (PyVal.str s) ms = none := by
  cases hx : py_index (PyVal.str s) 0 with
  | none => simp [trt_shape_comp, hx]
  | some v =>
      obtain ⟨c, rfl⟩ := py_index_str_is_str s 0 v hx
      simp [trt_shape_comp, hx, py_floordiv]

lemma trt_shape_comp_str_seq (b : Int) (t : String) :
    trt_shape_comp b img_size_default (PyVal.str t) = none :=
  rfl

lemma trt_shape_comp_defaults (b : Int) :
    trt_shape_comp b img_size_default max_seq_length_default =
      some ([b * 2, 4, 64, 64], [b * 2, 77, 768], [b]) :=
  rfl

/-- C10: the img_size and max_seq_length flags carry no argparse type
converter, so a command-line value is stored as its raw string; indexing
that string yields a one-character string, floor-dividing it by 8 is a type
error, and both pipelines' shape computations succeed exactly when both
flags keep their in-program defaults, the tuple (512, 512) and the int 77. -/
theorem untyped_flags_defaults_only :
    (∀ (d : PyVal) (s : String), parse_untyped_flag d (some s) = PyVal.str s)
    ∧ (∀ (c : Char) (cs : List Char),
        py_index (PyVal.str (String.mk (c :: cs))) 0 = some (PyVal.str (String.mk [c])))
    ∧ (∀ s : String, py_floordiv (PyVal.str s) 8 = none)
    ∧ (∀ ci cs : Option String,
        (onnx_shape_comp (parse_untyped_flag img_size_default ci)
            (parse_untyped_flag max_seq_length_default cs)).isSome = true
          ↔ ci = none ∧ cs = none)
    ∧ (∀ (b : Int) (ci cs : Option String),
        (trt_shape_comp b (parse_untyped_flag img_size_default ci)
            (parse_untyped_flag max_seq_length_default cs)).isSome = true
          ↔ ci = none ∧ cs = none) := by
  refine ⟨fun d s => rfl, fun c cs => rfl, fun s => rfl, fun ci cs => ?_, fun b ci cs => ?_⟩
  · cases ci with
    | some s => simp [parse_untyped_flag, onnx_shape_comp_str_img]
    | none =>
        cases cs with
        | some t => simp [parse_untyped_flag, onnx_shape_comp_str_seq]
        | none => simp [parse_untyped_flag, onnx_shape_comp_defaults]
  · cases ci with
    | some s => simp [parse_untyped_flag, trt_shape_comp_str_img]
    | none =>
        cases cs with
        | some t => simp [parse_untyped_flag, trt_shape_comp_str_seq]
        | none => simp [parse_untyped_flag, trt_shape_comp_defaults b]

/-- Witness for C10: at the defaults both shape computations succeed, and a
command-line img_size value such as "256" is stored as the raw string. -/
theorem untyped_flags_defaults_only_witness :
    (onnx_shape_comp (parse_untyped_flag img_size_default none)
        (parse_untyped_flag max_seq_length_default none)).isSome = true
    ∧ parse_untyped_flag img_size_default (some "256") = PyVal.str "256" :=
  ⟨(untyped_flags_defaults_only.2.2.2.1 none none).mpr ⟨rfl, rfl⟩,
   untyped_flags_defaults_only.1 img_size_default "256"⟩

end Volta
